import Mathlib

/-!
Shallow embedding of `src/app.js` of the B2B-ECOMMERCE-USING-ESCROW
repository: an Express application wiring session-backed authentication
(passport), flash messaging (connect-flash), a locals-injection middleware,
a home route, a guarded dashboard route and a 404 catch-all.

Modelling conventions:
* A session carries the resolved identity (`req.user`, set by
  `passport.session()`) and the connect-flash message store.  The flash
  store maps each of the three categories used by the app
  (`success_msg`, `error_msg`, `error`) to its queued list of messages;
  `req.flash(cat)` reads and destructively clears a category,
  `req.flash(cat, msg)` appends.
* A render context is an association list of string keys to values, as the
  object passed to `res.render` merged over `res.locals` (call-site options
  listed first, so they take precedence on lookup, as in Express).
* The four externally-owned route groups mounted before the app's own
  routes (`authRoutes` at `/`, and the `/users`, `/escrow`, `/payments`
  groups) are out of scope; whether one of them handles a given path is
  abstracted as a boolean matcher `extMatch` passed to the pipeline.
* The dashboard handler's try/catch is modelled with a boolean `fail`
  telling whether an internal failure is raised while gathering the data
  to render.
-/

namespace B2BEscrow

/-- Flash-message categories used by `src/app.js`
(`success_msg`, `error_msg` and passport's `error`). -/
inductive Cat
  | success_msg
  | error_msg
  | error
deriving DecidableEq, Repr

/-- The connect-flash store of a session: one queued message list per
category. -/
structure Flash where
  success_msg : List String
  error_msg : List String
  error : List String
deriving DecidableEq, Repr

/-- Queue of one category. -/
def Flash.get (f : Flash) : Cat → List String
  | .success_msg => f.success_msg
  | .error_msg => f.error_msg
  | .error => f.error

/-- Replace the queue of one category. -/
def Flash.set (f : Flash) : Cat → List String → Flash
  | .success_msg, l => { f with success_msg := l }
  | .error_msg, l => { f with error_msg := l }
  | .error, l => { f with error := l }

/-- Model of `req.flash(cat)`: return the queued messages of the category
and destructively clear that category (connect-flash deletes the read
key). -/
def Flash.read (f : Flash) (c : Cat) : List String × Flash :=
  (f.get c, f.set c [])

/-- Model of `req.flash(cat, msg)`: append one message to the category. -/
def Flash.push (f : Flash) (c : Cat) (m : String) : Flash :=
  f.set c (f.get c ++ [m])

/-- Empty flash store. -/
def Flash.empty : Flash := ⟨[], [], []⟩

/-- A server-side session as the pipeline sees it: the identity resolved by
`passport.session()` (`req.user`, `none` when anonymous) and the flash
store. -/
structure Session where
  user : Option String
  flash : Flash
deriving DecidableEq, Repr

/-- Session of a first visit: no token was presented, so no identity and no
queued notifications. -/
def freshSession : Session := ⟨none, Flash.empty⟩

/-- Values appearing in a render context. -/
inductive Val
  | vStr : String → Val
  | vUser : Option String → Val
  | vMsgs : List String → Val
  | vNat : Nat → Val
deriving DecidableEq, Repr

/-- A render context: ordered key/value pairs handed to the view renderer. -/
abbrev Ctx := List (String × Val)

/-- Look a key up in a render context (first binding wins, as call-site
options are listed before `res.locals`). -/
def ctxFind (c : Ctx) (k : String) : Option Val :=
  (c.find? (fun kv => kv.1 == k)).map (fun kv => kv.2)

/-- Whether a render context contains a key. -/
def hasKey (c : Ctx) (k : String) : Bool :=
  (c.find? (fun kv => kv.1 == k)).isSome

/-- Responses the modelled pipeline can produce: a redirect, a rendered
view (status code, view name, context), or a response produced by one of
the externally-owned mounted route groups. -/
inductive Response
  | redirect : String → Response
  | render : Nat → String → Ctx → Response
  | externalHandled : Response
deriving DecidableEq, Repr

/-- The render-context key of a flash category. -/
def catKey : Cat → String
  | .success_msg => "success_msg"
  | .error_msg => "error_msg"
  | .error => "error"

/-- The global-variables middleware (lines 68-74 of `src/app.js`): put
`req.user || null` and the drained flash categories into `res.locals`.
Since identities are passport user records (never falsy), `req.user || null`
is the identity when present and the explicit `null` marker otherwise.
Each `req.flash(cat)` read destructively clears its category. -/
def injectLocals (s : Session) : Ctx × Session :=
  let r1 := Flash.read s.flash .success_msg
  let r2 := Flash.read r1.2 .error_msg
  let r3 := Flash.read r2.2 .error
  ([("user", Val.vUser s.user),
    ("success_msg", Val.vMsgs r1.1),
    ("error_msg", Val.vMsgs r2.1),
    ("error", Val.vMsgs r3.1)],
   { s with flash := r3.2 })

/-- Fixed text queued by `ensureAuthenticated` (line 114). -/
def requiredLoginMsg : String := "Please log in to access this resource"

/-- Fixed text queued by the dashboard catch block (line 104). -/
def dashboardErrorMsg : String := "An error occurred while loading the dashboard"

/-- Result of the authentication gate: either control proceeds to the
protected handler with the given session, or the gate halts the request
with a response of its own. -/
inductive GateResult
  | proceed : Session → GateResult
  | halt : Response → Session → GateResult
deriving DecidableEq, Repr

/-- `ensureAuthenticated` (lines 110-116): if `req.isAuthenticated()`
(an identity is present), call `next()`; otherwise queue the fixed
required-login text under `error_msg` and redirect to `/login`. -/
def ensureAuthenticated (s : Session) : GateResult :=
  match s.user with
  | some _ => .proceed s
  | none =>
      .halt (.redirect "/login")
        { s with flash := s.flash.push .error_msg requiredLoginMsg }

/-- Home route handler (lines 83-91): redirect to `/dashboard` when
authenticated, else render the login view with the two fixed fields. -/
def homeHandler (locals : Ctx) (s : Session) : Response × Session :=
  match s.user with
  | some _ => (.redirect "/dashboard", s)
  | none =>
      (.render 200 "auth/login"
        ([("title", Val.vStr "Secure B2B Escrow Platform"),
          ("description",
           Val.vStr "A secure platform for B2B transactions with escrow protection")]
          ++ locals), s)

/-- Dashboard route handler body (lines 94-107): try to render the
dashboard view; on an internal failure (`fail = true`) log it, queue the
generic error text under `error_msg` and redirect to `/`. -/
def dashboardHandler (fail : Bool) (locals : Ctx) (s : Session) :
    Response × Session :=
  if fail then
    (.redirect "/", { s with flash := s.flash.push .error_msg dashboardErrorMsg })
  else
    (.render 200 "dashboard"
      ([("title", Val.vStr "Dashboard"), ("user", Val.vUser s.user)] ++ locals),
     s)

/-- 404 catch-all handler (lines 119-125): status 404 and the error view
with the fixed page-not-found context. -/
def notFoundHandler (locals : Ctx) (s : Session) : Response × Session :=
  (.render 404 "error"
    ([("title", Val.vStr "Page Not Found"),
      ("message", Val.vStr "The page you requested does not exist"),
      ("statusCode", Val.vNat 404)] ++ locals), s)

/-- The request pipeline of `src/app.js` for a request with the given
path, starting from the resolved session `s`:
the global-variables middleware runs first (unconditionally), then the
mounted external route groups are tried (`extMatch`), then the app's own
routes `GET /` and `GET /dashboard` (the latter behind
`ensureAuthenticated`), and finally the 404 catch-all. -/
def handleRequest (extMatch : String → Bool) (fail : Bool) (path : String)
    (s : Session) : Response × Session :=
  let inj := injectLocals s
  if extMatch path then (.externalHandled, inj.2)
  else if path = "/" then homeHandler inj.1 inj.2
  else if path = "/dashboard" then
    match ensureAuthenticated inj.2 with
    | .proceed s2 => dashboardHandler fail inj.1 s2
    | .halt r s2 => (r, s2)
  else notFoundHandler inj.1 inj.2

/-- `SESSION_SECRET` fallback (line 46): `process.env.SESSION_SECRET ||
'your_fallback_session_secret'` — the fallback is used when the variable is
absent (or empty, which is falsy in JS). -/
def sessionSecret (env : Option String) : String :=
  match env with
  | some v => if v = "" then "your_fallback_session_secret" else v
  | none => "your_fallback_session_secret"

/-- `PORT` fallback (line 131): `process.env.PORT || 3000` — the
environment value is a string when present and non-empty, else the numeric
default 3000. -/
def listenPort (env : Option String) : String ⊕ Nat :=
  match env with
  | some v => if v = "" then .inr 3000 else .inl v
  | none => .inr 3000

/-- Startup configuration derived from the environment (lines 46 and
131): total, so startup never fails for a missing secret or port. -/
structure StartupConfig where
  secret : String
  port : String ⊕ Nat
deriving DecidableEq, Repr

/-- Compute the startup configuration from the two environment values. -/
def startup (envSecret envPort : Option String) : StartupConfig :=
  { secret := sessionSecret envSecret, port := listenPort envPort }

/-! ### Theorems for the claims -/

/-- Claim C10: startup never fails for a missing session secret or port —
with both environment values absent, the configuration is total and uses
the fixed hardcoded fallback secret and the default port 3000. -/
theorem startup_uses_fallback_secret_and_default_port :
    startup none none =
      { secret := "your_fallback_session_secret", port := Sum.inr 3000 } := rfl

/-- Claim C3: notification drain is exactly-once per category — after the
locals middleware drains a session's flash queues for one render, a second
run of the middleware on the resulting session (with nothing enqueued in
between) observes the empty sequence for every category. -/
theorem drain_exactly_once (s : Session) (c : Cat) :
    ctxFind (injectLocals ((injectLocals s).2)).1 (catKey c)
      = some (Val.vMsgs []) := by
  cases c <;>
    simp [injectLocals, ctxFind, catKey, Flash.read, Flash.get, Flash.set]

/-- Claim C6: the view context's `user` field equals the session's resolved
identity when one is present and is the explicit `null` marker otherwise
(never a missing or uninitialized binding), and on a first visit with no
session token both notification lists in the context are empty. -/
theorem view_context_identity_and_fresh_empty (s : Session) :
    ctxFind (injectLocals s).1 "user" = some (Val.vUser s.user) ∧
    ctxFind (injectLocals freshSession).1 "success_msg"
      = some (Val.vMsgs []) ∧
    ctxFind (injectLocals freshSession).1 "error_msg"
      = some (Val.vMsgs []) ∧
    ctxFind (injectLocals freshSession).1 "error"
      = some (Val.vMsgs []) := by
  refine ⟨?_, ?_, ?_, ?_⟩ <;>
    simp [injectLocals, ctxFind, freshSession, Flash.read, Flash.get,
      Flash.set, Flash.empty]

/-- Claim C1: for a request with no identity, the dashboard route never
reaches the protected handler — whatever the handler would do (`fail`
arbitrary), the gate responds with a redirect to `/login` and leaves
exactly one queued notification with the fixed required-login text in the
error category (the `error_msg` flash queue). -/
theorem gate_blocks_anonymous_dashboard (extMatch : String → Bool)
    (fail : Bool) (s : Session) (hu : s.user = none)
    (hm : extMatch "/dashboard" = false) :
    (handleRequest extMatch fail "/dashboard" s).1 = .redirect "/login" ∧
    ((handleRequest extMatch fail "/dashboard" s).2).flash.get .error_msg
      = [requiredLoginMsg] := by
  simp [handleRequest, hm, injectLocals, ensureAuthenticated, hu,
    Flash.read, Flash.get, Flash.set, Flash.push]

/-- Witness for C1: a concrete anonymous session with stale queued
messages is blocked and ends with exactly the one required-login message. -/
theorem gate_blocks_anonymous_dashboard_witness :
    (handleRequest (fun _ => false) true "/dashboard"
        ⟨none, ⟨["ok"], ["old"], []⟩⟩).1 = .redirect "/login" ∧
    ((handleRequest (fun _ => false) true "/dashboard"
        ⟨none, ⟨["ok"], ["old"], []⟩⟩).2).flash.get .error_msg
      = [requiredLoginMsg] :=
  gate_blocks_anonymous_dashboard (fun _ => false) true
    ⟨none, ⟨["ok"], ["old"], []⟩⟩ rfl rfl

/-- Claim C2: with an identity present, the gate forwards control to the
protected dashboard handler with the session unchanged — `next()` is
called on the very session the gate received (no redirect, no flash
write), and the whole request behaves as the dashboard handler applied to
the middleware-injected locals and session. -/
theorem gate_passes_authenticated (extMatch : String → Bool) (fail : Bool)
    (s : Session) (u : String) (hu : s.user = some u)
    (hm : extMatch "/dashboard" = false) :
    ensureAuthenticated s = .proceed s ∧
    handleRequest extMatch fail "/dashboard" s
      = dashboardHandler fail (injectLocals s).1 (injectLocals s).2 := by
  constructor
  · simp [ensureAuthenticated, hu]
  · simp [handleRequest, hm, ensureAuthenticated, injectLocals, hu]

/-- Witness for C2: a concrete authenticated session passes the gate
untouched and the request is handled by the dashboard handler. -/
theorem gate_passes_authenticated_witness :
    ensureAuthenticated ⟨some "alice", ⟨[], ["x"], []⟩⟩
      = .proceed ⟨some "alice", ⟨[], ["x"], []⟩⟩ ∧
    handleRequest (fun _ => false) false "/dashboard"
        ⟨some "alice", ⟨[], ["x"], []⟩⟩
      = dashboardHandler false
          (injectLocals ⟨some "alice", ⟨[], ["x"], []⟩⟩).1
          (injectLocals ⟨some "alice", ⟨[], ["x"], []⟩⟩).2 :=
  gate_passes_authenticated (fun _ => false) false
    ⟨some "alice", ⟨[], ["x"], []⟩⟩ "alice" rfl rfl

/-- Claim C4: the root path redirects to `/dashboard` (no render) when an
identity is present, and with no identity renders the login view whose
context carries the two fixed static fields `title` and `description`. -/
theorem home_route_by_identity (extMatch : String → Bool) (fail : Bool)
    (s : Session) (hm : extMatch "/" = false) :
    (∀ u, s.user = some u →
      handleRequest extMatch fail "/" s
        = (.redirect "/dashboard", (injectLocals s).2)) ∧
    (s.user = none →
      handleRequest extMatch fail "/" s
        = (.render 200 "auth/login"
            ([("title", Val.vStr "Secure B2B Escrow Platform"),
              ("description",
               Val.vStr "A secure platform for B2B transactions with escrow protection")]
              ++ (injectLocals s).1), (injectLocals s).2)) := by
  constructor
  · intro u hu
    simp [handleRequest, hm, homeHandler, injectLocals, hu]
  · intro hu
    simp [handleRequest, hm, homeHandler, injectLocals, hu]

/-- Witness for C4: on a fresh anonymous session the root path renders the
login view with the two fixed fields; on an authenticated session it
redirects to the dashboard. -/
theorem home_route_by_identity_witness :
    handleRequest (fun _ => false) false "/" freshSession
      = (.render 200 "auth/login"
          ([("title", Val.vStr "Secure B2B Escrow Platform"),
            ("description",
             Val.vStr "A secure platform for B2B transactions with escrow protection")]
            ++ (injectLocals freshSession).1),
         (injectLocals freshSession).2) :=
  (home_route_by_identity (fun _ => false) false freshSession rfl).2 rfl

/-- Claim C5: an internal failure while the dashboard handler gathers its
render data is recovered, not propagated — the response is a redirect to
the root path and the error category (the `error_msg` flash queue) holds
exactly the one generic error-occurred notification. -/
theorem dashboard_failure_recovers (extMatch : String → Bool) (s : Session)
    (u : String) (hu : s.user = some u)
    (hm : extMatch "/dashboard" = false) :
    (handleRequest extMatch true "/dashboard" s).1 = .redirect "/" ∧
    ((handleRequest extMatch true "/dashboard" s).2).flash.get .error_msg
      = [dashboardErrorMsg] := by
  simp [handleRequest, hm, ensureAuthenticated, injectLocals, hu,
    dashboardHandler, Flash.read, Flash.get, Flash.set, Flash.push]

/-- Witness for C5: a concrete authenticated session whose dashboard
rendering fails ends with a redirect to `/` and the single generic error
notification. -/
theorem dashboard_failure_recovers_witness :
    (handleRequest (fun _ => false) true "/dashboard"
        ⟨some "bob", ⟨["s"], ["e"], ["p"]⟩⟩).1 = .redirect "/" ∧
    ((handleRequest (fun _ => false) true "/dashboard"
        ⟨some "bob", ⟨["s"], ["e"], ["p"]⟩⟩).2).flash.get .error_msg
      = [dashboardErrorMsg] :=
  dashboard_failure_recovers (fun _ => false)
    ⟨some "bob", ⟨["s"], ["e"], ["p"]⟩⟩ "bob" rfl rfl

/-- Counterexample to claim C7 as stated: a request to an unregistered
path is not free of side effects on the session — the unconditional locals
middleware runs before the 404 catch-all and drains the queued
notifications, so a session holding one queued success message comes out
changed. -/
theorem notfound_request_drains_queue :
    (handleRequest (fun _ => false) false "/no-such-page"
        ⟨none, ⟨["payment saved"], [], []⟩⟩).2
      ≠ ⟨none, ⟨["payment saved"], [], []⟩⟩ := by decide

/-- Claim C7 (amended): a request to a path matching no registered route
yields status 404 and the error view with the fixed page-not-found
context; the 404 responder itself adds no side effect — the final session
is exactly the post-middleware session, so when no notification was queued
the session is wholly unchanged. -/
theorem notfound_renders_404_fixed (extMatch : String → Bool) (fail : Bool)
    (p : String) (s : Session) (hm : extMatch p = false) (h1 : p ≠ "/")
    (h2 : p ≠ "/dashboard") :
    handleRequest extMatch fail p s
      = (.render 404 "error"
          ([("title", Val.vStr "Page Not Found"),
            ("message", Val.vStr "The page you requested does not exist"),
            ("statusCode", Val.vNat 404)] ++ (injectLocals s).1),
         (injectLocals s).2) ∧
    (s.flash = Flash.empty → (handleRequest extMatch fail p s).2 = s) := by
  constructor
  · simp [handleRequest, hm, h1, h2, notFoundHandler]
  · intro hf
    obtain ⟨u, f⟩ := s
    simp only at hf
    subst hf
    simp [handleRequest, hm, h1, h2, notFoundHandler, injectLocals,
      Flash.read, Flash.get, Flash.set, Flash.empty]

/-- Witness for C7 (amended): a fresh session requesting an unknown path
gets the fixed 404 render and is returned unchanged. -/
theorem notfound_renders_404_fixed_witness :
    handleRequest (fun _ => false) false "/no-such-page" freshSession
      = (.render 404 "error"
          ([("title", Val.vStr "Page Not Found"),
            ("message", Val.vStr "The page you requested does not exist"),
            ("statusCode", Val.vNat 404)]
            ++ (injectLocals freshSession).1),
         (injectLocals freshSession).2) ∧
    (freshSession.flash = Flash.empty →
      (handleRequest (fun _ => false) false "/no-such-page" freshSession).2
        = freshSession) :=
  notfound_renders_404_fixed (fun _ => false) false
    "/no-such-page" freshSession rfl (by decide) (by decide)

/-- Helper: a key found in the right part of an appended context is found
in the whole context. -/
theorem hasKey_append_right (l₁ l₂ : Ctx) (k : String)
    (h : hasKey l₂ k = true) : hasKey (l₁ ++ l₂) k = true := by
  induction l₁ with
  | nil => simpa using h
  | cons hd tl ih =>
      simp only [hasKey, List.cons_append, List.find?] at ih ⊢
      cases hkv : (hd.1 == k) with
      | true => simp
      | false => exact ih

/-- Helper: the injected locals context contains the four guaranteed
keys. -/
theorem injectLocals_hasKeys (s : Session) :
    hasKey (injectLocals s).1 "user" = true ∧
    hasKey (injectLocals s).1 "success_msg" = true ∧
    hasKey (injectLocals s).1 "error_msg" = true ∧
    hasKey (injectLocals s).1 "error" = true := by
  refine ⟨?_, ?_, ?_, ?_⟩ <;> simp [injectLocals, hasKey]

/-- Claim C8: every render, whichever handler triggered it, receives a
context containing all four guaranteed keys `user`, `success_msg`,
`error_msg` and `error` (injected by the locals middleware and preserved
through the Express merge of call-site options over `res.locals`). -/
theorem render_has_guaranteed_keys (extMatch : String → Bool) (fail : Bool)
    (p : String) (s : Session) (st : Nat) (v : String) (c : Ctx)
    (s' : Session)
    (h : handleRequest extMatch fail p s = (.render st v c, s')) :
    hasKey c "user" = true ∧ hasKey c "success_msg" = true ∧
    hasKey c "error_msg" = true ∧ hasKey c "error" = true := by
  obtain ⟨k1, k2, k3, k4⟩ := injectLocals_hasKeys s
  have husr : (injectLocals s).2.user = s.user := by simp [injectLocals]
  unfold handleRequest at h
  by_cases hext : extMatch p
  · simp [hext] at h
  · by_cases hroot : p = "/"
    · rw [if_neg (by simp [hext]), if_pos hroot] at h
      unfold homeHandler at h
      cases hu : s.user with
      | some u => rw [husr.trans hu] at h; simp at h
      | none =>
          rw [husr.trans hu] at h
          simp only [Prod.mk.injEq, Response.render.injEq] at h
          obtain ⟨⟨hst, hv, hc⟩, hs⟩ := h
          subst hc
          exact ⟨hasKey_append_right _ _ _ k1, hasKey_append_right _ _ _ k2,
            hasKey_append_right _ _ _ k3, hasKey_append_right _ _ _ k4⟩
    · by_cases hdash : p = "/dashboard"
      · rw [if_neg (by simp [hext]), if_neg hroot, if_pos hdash] at h
        unfold ensureAuthenticated at h
        cases hu : s.user with
        | some u =>
            rw [husr] at h
            rw [hu] at h
            simp only [] at h
            unfold dashboardHandler at h
            cases fail with
            | true => simp at h
            | false =>
                simp only [Bool.false_eq_true, if_false, Prod.mk.injEq,
                  Response.render.injEq] at h
                obtain ⟨⟨hst, hv, hc⟩, hs⟩ := h
                subst hc
                exact ⟨hasKey_append_right _ _ _ k1,
                  hasKey_append_right _ _ _ k2,
                  hasKey_append_right _ _ _ k3,
                  hasKey_append_right _ _ _ k4⟩
        | none =>
            rw [husr] at h
            rw [hu] at h
            simp at h
      · rw [if_neg (by simp [hext]), if_neg hroot, if_neg hdash] at h
        unfold notFoundHandler at h
        simp only [Prod.mk.injEq, Response.render.injEq] at h
        obtain ⟨⟨hst, hv, hc⟩, hs⟩ := h
        subst hc
        exact ⟨hasKey_append_right _ _ _ k1, hasKey_append_right _ _ _ k2,
          hasKey_append_right _ _ _ k3, hasKey_append_right _ _ _ k4⟩

/-- Witness for C8: the login render of a fresh anonymous root request
carries the four guaranteed keys. -/
theorem render_has_guaranteed_keys_witness :
    hasKey ([("title", Val.vStr "Secure B2B Escrow Platform"),
      ("description",
       Val.vStr "A secure platform for B2B transactions with escrow protection")]
        ++ (injectLocals freshSession).1) "user" = true ∧
    hasKey ([("title", Val.vStr "Secure B2B Escrow Platform"),
      ("description",
       Val.vStr "A secure platform for B2B transactions with escrow protection")]
        ++ (injectLocals freshSession).1) "success_msg" = true ∧
    hasKey ([("title", Val.vStr "Secure B2B Escrow Platform"),
      ("description",
       Val.vStr "A secure platform for B2B transactions with escrow protection")]
        ++ (injectLocals freshSession).1) "error_msg" = true ∧
    hasKey ([("title", Val.vStr "Secure B2B Escrow Platform"),
      ("description",
       Val.vStr "A secure platform for B2B transactions with escrow protection")]
        ++ (injectLocals freshSession).1) "error" = true :=
  render_has_guaranteed_keys (fun _ => false) false "/" freshSession
    200 "auth/login" _ (injectLocals freshSession).2 (by decide)

/-- Claim C9: the locals middleware runs unconditionally before dispatch,
for protected and unprotected routes alike — every rendered context's
identity and notification fields are exactly the injector's projection of
the incoming session (identity, and the pre-request queue of each
category), and after any response the drained categories that no handler
re-fills (`success_msg` and `error`) are empty, whatever was queued
before. -/
theorem pipeline_injects_before_dispatch (extMatch : String → Bool)
    (fail : Bool) (p : String) (s : Session) (hm : extMatch p = false) :
    (∀ st v c s2,
      handleRequest extMatch fail p s = (.render st v c, s2) →
      ctxFind c "user" = some (.vUser s.user) ∧
      ctxFind c "success_msg" = some (.vMsgs (s.flash.get .success_msg)) ∧
      ctxFind c "error_msg" = some (.vMsgs (s.flash.get .error_msg)) ∧
      ctxFind c "error" = some (.vMsgs (s.flash.get .error))) ∧
    ((handleRequest extMatch fail p s).2).flash.get .success_msg = [] ∧
    ((handleRequest extMatch fail p s).2).flash.get .error = [] := by
  obtain ⟨u, ⟨fa, fb, fc⟩⟩ := s
  constructor
  · intro st v c s2 h
    simp only [handleRequest, hm, Bool.false_eq_true, if_false] at h
    by_cases hroot : p = "/"
    · rw [if_pos hroot] at h
      cases u with
      | some u0 =>
          simp [homeHandler, injectLocals, Flash.read, Flash.get,
            Flash.set] at h
      | none =>
          simp only [homeHandler, injectLocals, Flash.read, Flash.get,
            Flash.set, Prod.mk.injEq, Response.render.injEq] at h
          obtain ⟨⟨hst, hv, hc⟩, hs⟩ := h
          subst hc
          refine ⟨?_, ?_, ?_, ?_⟩ <;> simp [ctxFind, Flash.get]
    · rw [if_neg hroot] at h
      by_cases hdash : p = "/dashboard"
      · rw [if_pos hdash] at h
        cases u with
        | some u0 =>
            cases fail with
            | true =>
                simp [ensureAuthenticated, dashboardHandler, injectLocals,
                  Flash.read, Flash.get, Flash.set] at h
            | false =>
                simp only [ensureAuthenticated, dashboardHandler,
                  injectLocals, Flash.read, Flash.get, Flash.set,
                  Bool.false_eq_true, if_false, Prod.mk.injEq,
                  Response.render.injEq] at h
                obtain ⟨⟨hst, hv, hc⟩, hs⟩ := h
                subst hc
                refine ⟨?_, ?_, ?_, ?_⟩ <;> simp [ctxFind, Flash.get]
        | none =>
            simp [ensureAuthenticated, injectLocals, Flash.read,
              Flash.get, Flash.set] at h
      · rw [if_neg hdash] at h
        simp only [notFoundHandler, injectLocals, Flash.read, Flash.get,
          Flash.set, Prod.mk.injEq, Response.render.injEq] at h
        obtain ⟨⟨hst, hv, hc⟩, hs⟩ := h
        subst hc
        refine ⟨?_, ?_, ?_, ?_⟩ <;> simp [ctxFind, Flash.get]
  · simp only [handleRequest, hm, Bool.false_eq_true, if_false]
    by_cases hroot : p = "/"
    · rw [if_pos hroot]
      cases u <;>
        simp [homeHandler, injectLocals, Flash.read, Flash.get, Flash.set]
    · rw [if_neg hroot]
      by_cases hdash : p = "/dashboard"
      · rw [if_pos hdash]
        cases u with
        | some u0 =>
            cases fail <;>
              simp [ensureAuthenticated, dashboardHandler, injectLocals,
                Flash.read, Flash.get, Flash.set, Flash.push]
        | none =>
            simp [ensureAuthenticated, injectLocals, Flash.read,
              Flash.get, Flash.set, Flash.push]
      · rw [if_neg hdash]
        simp [notFoundHandler, injectLocals, Flash.read, Flash.get,
          Flash.set]

/-- Witness for C9: on a concrete anonymous root request with a stale
queued message, the rendered login context carries the injected fields and
the drained categories end empty. -/
theorem pipeline_injects_before_dispatch_witness :
    (∀ st v c s2,
      handleRequest (fun _ => false) false "/"
          ⟨none, ⟨["hello"], [], ["p"]⟩⟩ = (.render st v c, s2) →
      ctxFind c "user" = some (.vUser none) ∧
      ctxFind c "success_msg"
        = some (.vMsgs ((Flash.mk ["hello"] [] ["p"]).get .success_msg)) ∧
      ctxFind c "error_msg"
        = some (.vMsgs ((Flash.mk ["hello"] [] ["p"]).get .error_msg)) ∧
      ctxFind c "error"
        = some (.vMsgs ((Flash.mk ["hello"] [] ["p"]).get .error))) ∧
    ((handleRequest (fun _ => false) false "/"
        ⟨none, ⟨["hello"], [], ["p"]⟩⟩).2).flash.get .success_msg = [] ∧
    ((handleRequest (fun _ => false) false "/"
        ⟨none, ⟨["hello"], [], ["p"]⟩⟩).2).flash.get .error = [] :=
  pipeline_injects_before_dispatch (fun _ => false) false "/"
    ⟨none, ⟨["hello"], [], ["p"]⟩⟩ rfl

end B2BEscrow
